import Mathlib

/-!
Shallow embedding of `src/crrunner/crruner.py` (cRRunner: copy files to a
remote host over SSH, optionally run a command with a timeout, optionally
clean up what was copied).

Modelling conventions:
* The external SSH/SFTP transport (paramiko) is modelled by a `World` record
  describing the behaviour of the remote endpoint and the local filesystem;
  SFTP side effects are collected into a trace of `RemoteOp`s.
* Python exceptions become an inductive `PyExc`; fallible code returns
  `Except PyExc _`.
* Wall-clock time in `_raw_execute`'s polling loop is discretised into
  0.1-second ticks (the loop sleeps 0.1 s per iteration); a timeout of
  `t` seconds is `10 * t` ticks.  A remote command is characterised by the
  tick at which its exit status becomes ready, its exit code, and the
  stdout/stderr chunk it emits during each tick.
-/

namespace CRR

/-- `STATUS_SUCCESS = 0` in crruner.py. -/
def STATUS_SUCCESS : Nat := 0

/-- `STATUS_TIMEOUT = 1` in crruner.py. -/
def STATUS_TIMEOUT : Nat := 1

/-- Python exceptions that the embedded code can raise.
`timeoutError` carries the stdout/stderr stream handles, mirroring
`t.stdout = stdout; t.stderr = stderr` in `_raw_execute`.  Stream handles
are modelled by the text a `.read().decode()` would yield. -/
inductive PyExc where
  /-- `TimeoutError('Command timed out')` with `stdout` / `stderr` attached. -/
  | timeoutError (stdout stderr : String)
  /-- a transport/auth failure raised by `paramiko` when (re)connecting -/
  | connectionError
  /-- `NotImplementedError` -/
  | notImplementedError
  /-- `AttributeError`: attribute access on an object lacking it -/
  | attributeError
  /-- `ValueError(msg)` -/
  | valueError (msg : String)
  /-- `TypeError` (e.g. `os.path.isfile(None)`) -/
  | typeError
  /-- an OS-level error from an sftp/os call (e.g. a failing `unlink`,
      or `os.listdir` on a missing path) -/
  | osError
  deriving DecidableEq, Repr

/-- Python attribute access `ex.stdout`: only a `TimeoutError` carries the
attribute; on any other exception the access itself raises `AttributeError`. -/
def PyExc.getStdout : PyExc → Except PyExc String
  | .timeoutError so _ => .ok so
  | _ => .error .attributeError

/-- Python attribute access `ex.stderr`. -/
def PyExc.getStderr : PyExc → Except PyExc String
  | .timeoutError _ se => .ok se
  | _ => .error .attributeError

/-- The `Result` class of crruner.py. -/
structure Result where
  statusCode : Nat
  remoteReturnCode : Option Int := none
  stdout : Option String := none
  stderr : Option String := none
  exception : Option PyExc := none
  deriving DecidableEq, Repr

/-- `Result.didFail`: `self.statusCode != 0`. -/
def Result.didFail (r : Result) : Bool :=
  r.statusCode != 0

/-- The `CopyObject` class: a local path and a remote path, either may be
`None` (but not both, enforced by `CopyObject.init`). -/
structure CopyObject where
  local_ : Option String
  remote : Option String
  deriving DecidableEq, Repr

/-- `CopyObject.__init__`: raises `ValueError` when both `local` and
`remote` are `None`; otherwise stores both fields verbatim. -/
def CopyObject.init (l r : Option String) : Except PyExc CopyObject :=
  if l.isNone && r.isNone then
    .error (.valueError "local and remote cannot both be None")
  else
    .ok { local_ := l, remote := r }

/-- A local file-or-directory tree (what `os.path.isfile` / `os.listdir`
reveal about a local path in `_put`).  `dir` entries are listed in the
order `os.listdir` returns them. -/
inductive LocalEntry where
  | file (name : String) (content : String)
  | dir (name : String) (entries : List LocalEntry)
  deriving Repr

/-- The name component of a local entry (the `item` of `os.listdir`). -/
def LocalEntry.name : LocalEntry → String
  | .file n _ => n
  | .dir n _ => n

/-- Remote SFTP operations issued by the runner, collected as a trace. -/
inductive RemoteOp where
  /-- `sftp.mkdir(path)` (via `_safeMkdir`, errors swallowed) -/
  | mkdir (path : String)
  /-- `sftp.put(local, remote)`: creates remote file `path` with `content` -/
  | putFile (path : String) (content : String)
  /-- `sftp.unlink(path)` -/
  | unlink (path : String)
  deriving DecidableEq, Repr

/-- Whether a remote operation is an `unlink`. -/
def RemoteOp.isUnlink : RemoteOp → Bool
  | .unlink _ => true
  | _ => false

/-- `os.path.basename` for POSIX-style paths: the part after the last `/`
(empty when the path ends in a slash). -/
def basename (p : String) : String :=
  String.mk ((p.data.reverse.takeWhile (fun c => c ≠ '/')).reverse)

/-- `'%s/%s' % (remote, item)`: forward-slash concatenation. -/
def joinRemote (remote item : String) : String :=
  remote ++ "/" ++ item

mutual

/-- `cRRunner._put(local, remote)` on an existing local tree (the `remote
is None` defaulting is handled by the caller `putObj`): returns the
`retList` of remote file paths put, paired with the trace of SFTP
operations issued.  A regular file is uploaded and is the single element
of the list; a directory is `_safeMkdir`'d (not recorded in the list) and
every entry is recursed into, with the sub-lists concatenated.  Note that
for a subdirectory the source calls `_safeMkdir` both before recursing and
again at the top of the recursive call, so its `mkdir` appears twice in
the trace. -/
def putEntry : LocalEntry → String → List String × List RemoteOp
  | .file _ content, remote => ([remote], [.putFile remote content])
  | .dir _ entries, remote =>
    let rest := putEntries entries remote
    (rest.1, .mkdir remote :: rest.2)

/-- The `for item in os.listdir(local)` loop of `_put` over the entries of
a directory whose remote destination is `remote`. -/
def putEntries : List LocalEntry → String → List String × List RemoteOp
  | [], _ => ([], [])
  | e :: es, remote =>
    let childRemote := joinRemote remote e.name
    let child := putEntry e childRemote
    let childOps :=
      match e with
      | .file _ _ => child.2
      | .dir _ _ => .mkdir childRemote :: child.2
    let rest := putEntries es remote
    (child.1 ++ rest.1, childOps ++ rest.2)

end

mutual

/-- Number of remote files created by putting this local tree. -/
def LocalEntry.countFiles : LocalEntry → Nat
  | .file _ _ => 1
  | .dir _ entries => countFilesList entries

/-- Sum of `countFiles` over a list of entries. -/
def countFilesList : List LocalEntry → Nat
  | [] => 0
  | e :: es => e.countFiles + countFilesList es

end

mutual

/-- Number of remote directories created by putting this local tree
(the root directory included when the tree is a directory). -/
def LocalEntry.countDirs : LocalEntry → Nat
  | .file _ _ => 0
  | .dir _ entries => 1 + countDirsList entries

/-- Sum of `countDirs` over a list of entries. -/
def countDirsList : List LocalEntry → Nat
  | [] => 0
  | e :: es => e.countDirs + countDirsList es

end

mutual

/-- The remote paths of all files created by putting tree `e` at `remote`
(spec-level description of `_put`'s return value, used to compare against
`putEntry`). -/
def remoteFilePaths : LocalEntry → String → List String
  | .file _ _, remote => [remote]
  | .dir _ entries, remote => remoteFilePathsList entries remote

/-- `remoteFilePaths` of every entry of a directory at `remote`, concatenated. -/
def remoteFilePathsList : List LocalEntry → String → List String
  | [], _ => []
  | e :: es, remote =>
    remoteFilePaths e (joinRemote remote e.name) ++ remoteFilePathsList es remote

end

/-- Behaviour of one remote command: the 0.1-second tick at which its exit
status becomes ready, its exit code, and the stdout/stderr text it emits
during each tick (chunk `k` is produced during tick `k`). -/
structure RemoteCommand where
  readyAt : Nat
  exitCode : Int
  stdoutChunks : List String
  stderrChunks : List String
  deriving Repr

/-- Concatenate the chunks emitted during the first `n` ticks. -/
def emitted (chunks : List String) (n : Nat) : String :=
  String.join (chunks.take n)

/-- Everything the command will ever write (what a full drain reads after
the command has completed). -/
def fullOutput (chunks : List String) : String :=
  String.join chunks

/-- The `while time.time() < deathTime` polling loop of `_raw_execute`,
checking at tick `tick` with the deadline at tick `deathTick`: returns
`true` when the loop `break`s (exit status became ready before the
deadline) and `false` when the `while` condition fails first (the `else`
branch: timeout). -/
def pollLoop (readyAt deathTick tick : Nat) : Bool :=
  if tick < deathTick then
    if readyAt ≤ tick then true
    else pollLoop readyAt deathTick (tick + 1)
  else false
termination_by deathTick - tick

/-- World model of the remote endpoint and local filesystem seen through
paramiko/os. -/
structure World where
  /-- local paths and the trees rooted there (`os.path.isfile`/`os.listdir`) -/
  localFS : List (String × LocalEntry)
  /-- behaviour of each remote command string -/
  command : String → RemoteCommand
  /-- the cached transport has dropped after the copy-to step and the
      reconnect attempt in `_raw_execute`'s `_getSshClient` fails -/
  connectionDropsBeforeExecute : Bool
  /-- which remote paths `sftp.unlink` fails on -/
  unlinkFails : String → Bool

/-- Look a local path up in the world's local filesystem. -/
def World.findLocal (w : World) (p : String) : Option LocalEntry :=
  (w.localFS.find? (fun q => q.1 == p)).map Prod.snd

/-- `cRRunner._raw_execute(remoteCmd, timeoutSeconds)` for a command with
behaviour `cmd`: polls every 0.1 s until the exit status is ready or the
deadline (at `10 * timeoutSeconds` ticks) elapses.  On completion returns
the stdout/stderr handles (modelled by the text a full drain reads); on
timeout closes the ssh transport (the returned `Bool` is `true`) and
raises `TimeoutError` carrying handles holding the output accumulated in
the ticks before the kill.  -/
def rawExecute (cmd : RemoteCommand) (timeoutSeconds : Nat) :
    Except PyExc (String × String) × Bool :=
  let deathTick := 10 * timeoutSeconds
  if pollLoop cmd.readyAt deathTick 0 then
    (.ok (fullOutput cmd.stdoutChunks, fullOutput cmd.stderrChunks), false)
  else
    (.error (.timeoutError (emitted cmd.stdoutChunks deathTick)
                           (emitted cmd.stderrChunks deathTick)), true)

/-- `cRRunner._execute()`: runs `_raw_execute`, then builds a `Success`
result from the exit status and a full drain of stdout/stderr.  The
returned `Bool` is whether the transport was force-closed. -/
def execute (cmd : RemoteCommand) (timeoutSeconds : Nat) :
    Except PyExc Result × Bool :=
  match rawExecute cmd timeoutSeconds with
  | (.ok (so, se), closed) =>
    (.ok { statusCode := STATUS_SUCCESS, remoteReturnCode := some cmd.exitCode,
           stdout := some so, stderr := some se, exception := none }, closed)
  | (.error e, closed) => (.error e, closed)

/-- `cRRunner._put(copyObj.local, copyObj.remote)` as invoked from
`_doCopyObjectsTo`: a `None` remote defaults to `os.path.basename(local)`;
a `None` local makes `os.path.isfile(None)` raise `TypeError`; a missing
local path falls into the folder branch (`os.path.isfile` is false), so
the remote directory is `_safeMkdir`'d and then `os.listdir` raises. -/
def putObj (w : World) (co : CopyObject) :
    List RemoteOp × Except PyExc (List String) :=
  match co.local_ with
  | none => ([], .error .typeError)
  | some lp =>
    let remote :=
      match co.remote with
      | none => basename lp
      | some r => r
    match w.findLocal lp with
    | some entry =>
      let r := putEntry entry remote
      (r.2, .ok r.1)
    | none => ([.mkdir remote], .error .osError)

/-- `cRRunner._get`: `raise NotImplementedError`. -/
def getObj (_ : CopyObject) : Except PyExc Unit :=
  .error .notImplementedError

/-- The loop body of `_doCopyObjectsTo`: put each copy object in order,
extending the ledger (`self._remoteToDelete`) with each returned list.
Returns the SFTP trace, the accumulated ledger, and whether the loop
completed or an exception aborted it; a failing `_put` contributes no
ledger entries (the `extend` never runs) and the remaining copy objects
are not processed. -/
def copyToLoop (w : World) : List CopyObject →
    List RemoteOp × List String × Except PyExc Unit
  | [] => ([], [], .ok ())
  | co :: rest =>
    let (ops, r) := putObj w co
    match r with
    | .error e => (ops, [], .error e)
    | .ok files =>
      let (ops2, files2, r2) := copyToLoop w rest
      (ops ++ ops2, files ++ files2, r2)

/-- `cRRunner._doCopyObjectsTo()`: first reassigns
`self._remoteToDelete = []`, discarding whatever ledger was there, then
runs the copy loop.  Takes the previous `_remoteToDelete` field and
returns (trace, new `_remoteToDelete`, outcome). -/
def doCopyObjectsTo (w : World) (cos : List CopyObject)
    (_ledger : List String) :
    List RemoteOp × List String × Except PyExc Unit :=
  copyToLoop w cos

/-- `cRRunner._doCopyObjectsFrom()`: raises `NotImplementedError` when the
`copyObjectsFrom` list is non-empty, otherwise does nothing. -/
def doCopyObjectsFrom (cos : List CopyObject) : Except PyExc Unit :=
  if cos.length ≠ 0 then .error (.notImplementedError) else .ok ()

/-- `cRRunner._doDeleteRemote()`: `sftp.unlink` every path in the ledger
in order.  There is no per-path error handling: a failing unlink raises
out of the loop and the remaining paths are not unlinked. -/
def doDeleteRemote (w : World) : List String →
    List RemoteOp × Except PyExc Unit
  | [] => ([], .ok ())
  | p :: rest =>
    if w.unlinkFails p then ([.unlink p], .error .osError)
    else
      let (ops, r) := doDeleteRemote w rest
      (.unlink p :: ops, r)

/-- The `cRRunner` configuration (constructor arguments after validation
and defaulting). -/
structure CRRunner where
  remoteIp : String
  remoteCmd : Option String := none
  remoteCmdTimeout : Nat := 60
  remoteUsername : Option String := none
  remotePassword : Option String := none
  copyObjectsTo : List CopyObject := []
  copyObjectsFrom : List CopyObject := []
  remotePort : Nat := 22
  cleanRemote : Bool := true
  quiet : Bool := true

/-- `cRRunner.__init__`: raises `ValueError` when
`type(remoteUsername) is not type(remotePassword)` — for optional string
credentials this is exactly "one is a string and the other is None";
otherwise stores the configuration, defaulting `None` copy lists to `[]`. -/
def CRRunner.init (remoteIp : String) (remoteCmd : Option String)
    (remoteCmdTimeout : Nat) (remoteUsername remotePassword : Option String)
    (copyObjectsTo copyObjectsFrom : Option (List CopyObject))
    (remotePort : Nat) (cleanRemote quiet : Bool) :
    Except PyExc CRRunner :=
  if remoteUsername.isSome != remotePassword.isSome then
    .error (.valueError "If remoteUsername is provided, we also need remotePassword")
  else
    .ok { remoteIp := remoteIp, remoteCmd := remoteCmd,
          remoteCmdTimeout := remoteCmdTimeout,
          remoteUsername := remoteUsername, remotePassword := remotePassword,
          copyObjectsTo := copyObjectsTo.getD [],
          copyObjectsFrom := copyObjectsFrom.getD [],
          remotePort := remotePort, cleanRemote := cleanRemote, quiet := quiet }

/-- The execute step of `run()` including its `try/except`: when a command
is configured, call `_execute`; catch any exception `ex` and build
`Result(statusCode=STATUS_TIMEOUT, exception=ex,
stdout=ex.stdout.read().decode(), stderr=ex.stderr.read().decode())` —
the attribute accesses `ex.stdout` / `ex.stderr` succeed only on a
`TimeoutError`, so any other exception makes the handler itself raise
`AttributeError`.  When the cached transport has dropped, `_getSshClient`
inside `_raw_execute` reconnects and that attempt may fail.  The `Bool`
reports whether the transport was force-closed by a timeout. -/
def executePhase (w : World) (cfg : CRRunner) :
    Except PyExc (Option Result) × Bool :=
  match cfg.remoteCmd with
  | none => (.ok none, false)
  | some cmdStr =>
    let attempt : Except PyExc Result × Bool :=
      if w.connectionDropsBeforeExecute then (.error .connectionError, false)
      else execute (w.command cmdStr) cfg.remoteCmdTimeout
    match attempt with
    | (.ok r, closed) => (.ok (some r), closed)
    | (.error ex, closed) =>
      match ex.getStdout, ex.getStderr with
      | .ok so, .ok se =>
        (.ok (some { statusCode := STATUS_TIMEOUT, remoteReturnCode := none,
                     stdout := some so, stderr := some se,
                     exception := some ex }), closed)
      | .error e, _ => (.error e, closed)
      | _, .error e => (.error e, closed)

/-- The observable outcome of one `run()` call. -/
structure RunOut where
  /-- the trace of SFTP operations issued, in order -/
  trace : List RemoteOp
  /-- `run`'s return value (`none` when no command was configured), or the
      exception that propagated out of `run` -/
  outcome : Except PyExc (Option Result)
  /-- the `self._remoteToDelete` field after the call -/
  finalLedger : List String
  /-- whether the transport was force-closed by a command timeout -/
  transportClosed : Bool
  deriving Repr

/-- `cRRunner.run()` starting from ledger state `ledger`
(`self._remoteToDelete`): copy-to, then the guarded execute step, then
copy-from, then — when `cleanRemote` — delete every ledger path.  Returns
the execute step's Result, or `none` when no command was configured. -/
def run (w : World) (cfg : CRRunner) (ledger : List String) : RunOut :=
  let (ops1, ledger1, rc) := doCopyObjectsTo w cfg.copyObjectsTo ledger
  match rc with
  | .error e =>
    { trace := ops1, outcome := .error e, finalLedger := ledger1,
      transportClosed := false }
  | .ok () =>
    let (execRes, closed) := executePhase w cfg
    match execRes with
    | .error e =>
      { trace := ops1, outcome := .error e, finalLedger := ledger1,
        transportClosed := closed }
    | .ok result =>
      match doCopyObjectsFrom cfg.copyObjectsFrom with
      | .error e =>
        { trace := ops1, outcome := .error e, finalLedger := ledger1,
          transportClosed := closed }
      | .ok () =>
        if cfg.cleanRemote then
          let (ops2, rd) := doDeleteRemote w ledger1
          { trace := ops1 ++ ops2,
            outcome := rd.map (fun _ => result),
            finalLedger := ledger1, transportClosed := closed }
        else
          { trace := ops1, outcome := .ok result, finalLedger := ledger1,
            transportClosed := closed }

/-! ### Concrete worlds and configurations used as test inputs -/

/-- A command that would only finish at tick 100: with a 1-second timeout
(10 ticks) the deadline elapses first.  One stdout/stderr chunk is emitted
in the first tick. -/
def wTimeout : World :=
  { localFS := [],
    command := fun _ =>
      { readyAt := 100, exitCode := 0,
        stdoutChunks := ["partial-out"], stderrChunks := ["partial-err"] },
    connectionDropsBeforeExecute := false,
    unlinkFails := fun _ => false }

/-- Configuration running a long command with a 1-second timeout. -/
def cfgTimeout : CRRunner :=
  { remoteIp := "1.2.3.4", remoteCmd := some "sleep 10", remoteCmdTimeout := 1 }

/-- A command that finishes at tick 3, well inside a 1-second timeout,
exiting with code 42. -/
def wSuccess : World :=
  { localFS := [],
    command := fun _ =>
      { readyAt := 3, exitCode := 42,
        stdoutChunks := ["hello"], stderrChunks := [] },
    connectionDropsBeforeExecute := false,
    unlinkFails := fun _ => false }

/-- Configuration running a quick command with a 1-second timeout. -/
def cfgSuccess : CRRunner :=
  { remoteIp := "1.2.3.4", remoteCmd := some "quick", remoteCmdTimeout := 1 }

/-- A world where the cached transport has dropped after copy-to and the
reconnect in `_raw_execute` fails, so the execute step raises a
(non-timeout) connection error. -/
def wConnDrop : World :=
  { localFS := [],
    command := fun _ =>
      { readyAt := 0, exitCode := 0, stdoutChunks := [], stderrChunks := [] },
    connectionDropsBeforeExecute := true,
    unlinkFails := fun _ => false }

/-- Configuration with a command, for the connection-drop scenario. -/
def cfgConnDrop : CRRunner :=
  { remoteIp := "1.2.3.4", remoteCmd := some "ls" }

/-- A local directory containing one subdirectory containing one file:
putting it creates 2 remote directories and 1 remote file. -/
def nestedTree : LocalEntry :=
  .dir "d" [.dir "s" [.file "f" "x"]]

/-- A world whose local filesystem has `nestedTree` at path `d`. -/
def wTree : World :=
  { localFS := [("d", nestedTree)],
    command := fun _ =>
      { readyAt := 0, exitCode := 0, stdoutChunks := [], stderrChunks := [] },
    connectionDropsBeforeExecute := false,
    unlinkFails := fun _ => false }

/-- Configuration copying `d` to remote `r`, no command, cleanup enabled
(the default). -/
def cfgTree : CRRunner :=
  { remoteIp := "1.2.3.4",
    copyObjectsTo := [{ local_ := some "d", remote := some "r" }] }

/-- A world where unlinking remote path `a` fails and every other unlink
succeeds. -/
def wUnlinkFail : World :=
  { localFS := [],
    command := fun _ =>
      { readyAt := 0, exitCode := 0, stdoutChunks := [], stderrChunks := [] },
    connectionDropsBeforeExecute := false,
    unlinkFails := fun p => p == "a" }

/-- Configuration with a non-empty copy-from list (and nothing else). -/
def cfgFrom : CRRunner :=
  { remoteIp := "1.2.3.4",
    copyObjectsFrom := [{ local_ := some "x", remote := none }] }

/-! ### Helper lemmas -/

/-- The polling loop breaks out (the command completed) exactly when some
tick in `[tick, deathTick)` is at or after `readyAt`; since readiness is
monotone this is `tick < deathTick ∧ readyAt < deathTick`. -/
theorem pollLoop_eq (r d t : Nat) :
    pollLoop r d t = decide (t < d ∧ r < d) := by
  unfold pollLoop
  split
  · split
    · rename_i h hr
      exact (decide_eq_true ⟨h, Nat.lt_of_le_of_lt hr h⟩).symm
    · rw [pollLoop_eq r d (t + 1)]
      simp only [decide_eq_decide]
      omega
  · exact (decide_eq_false (by omega)).symm
termination_by d - t

/-- `_raw_execute` when the deadline elapses before the exit status is
ready: the transport is force-closed and `TimeoutError` is raised carrying
the output of the ticks before the kill. -/
theorem rawExecute_timeout (cmd : RemoteCommand) (tmo : Nat)
    (h : 10 * tmo ≤ cmd.readyAt) :
    rawExecute cmd tmo =
      (.error (.timeoutError (emitted cmd.stdoutChunks (10 * tmo))
                             (emitted cmd.stderrChunks (10 * tmo))), true) := by
  have hnot : ¬ (0 < 10 * tmo ∧ cmd.readyAt < 10 * tmo) := by omega
  simp [rawExecute, pollLoop_eq, hnot]
  omega

/-- `_raw_execute` when the exit status becomes ready before the deadline:
returns the handles and the transport stays open. -/
theorem rawExecute_success (cmd : RemoteCommand) (tmo : Nat)
    (h : cmd.readyAt < 10 * tmo) :
    rawExecute cmd tmo =
      (.ok (fullOutput cmd.stdoutChunks, fullOutput cmd.stderrChunks), false) := by
  have hand : 0 < 10 * tmo ∧ cmd.readyAt < 10 * tmo := ⟨by omega, h⟩
  simp [rawExecute, pollLoop_eq, hand]

/-- The execute step when no command is configured: skipped, no Result. -/
theorem executePhase_none (w : World) (cfg : CRRunner)
    (hcmd : cfg.remoteCmd = none) :
    executePhase w cfg = (.ok none, false) := by
  simp [executePhase, hcmd]

/-- The execute step on a command that completes in time: a Success
Result with the true exit code and the fully-drained output. -/
theorem executePhase_success (w : World) (cfg : CRRunner) (cmdStr : String)
    (hcmd : cfg.remoteCmd = some cmdStr)
    (hconn : w.connectionDropsBeforeExecute = false)
    (hready : (w.command cmdStr).readyAt < 10 * cfg.remoteCmdTimeout) :
    executePhase w cfg =
      (.ok (some { statusCode := STATUS_SUCCESS,
                   remoteReturnCode := some (w.command cmdStr).exitCode,
                   stdout := some (fullOutput (w.command cmdStr).stdoutChunks),
                   stderr := some (fullOutput (w.command cmdStr).stderrChunks),
                   exception := none }), false) := by
  simp [executePhase, hcmd, hconn, execute,
        rawExecute_success (w.command cmdStr) cfg.remoteCmdTimeout hready]

/-- The execute step on a command that times out: the `TimeoutError` is
caught and converted into a Timeout Result with no exit code and the
partial output, and the transport was force-closed. -/
theorem executePhase_timeout (w : World) (cfg : CRRunner) (cmdStr : String)
    (hcmd : cfg.remoteCmd = some cmdStr)
    (hconn : w.connectionDropsBeforeExecute = false)
    (hdead : 10 * cfg.remoteCmdTimeout ≤ (w.command cmdStr).readyAt) :
    executePhase w cfg =
      (.ok (some { statusCode := STATUS_TIMEOUT,
                   remoteReturnCode := none,
                   stdout := some (emitted (w.command cmdStr).stdoutChunks
                       (10 * cfg.remoteCmdTimeout)),
                   stderr := some (emitted (w.command cmdStr).stderrChunks
                       (10 * cfg.remoteCmdTimeout)),
                   exception := some (.timeoutError
                       (emitted (w.command cmdStr).stdoutChunks
                         (10 * cfg.remoteCmdTimeout))
                       (emitted (w.command cmdStr).stderrChunks
                         (10 * cfg.remoteCmdTimeout))) }), true) := by
  simp [executePhase, hcmd, hconn, execute,
        rawExecute_timeout (w.command cmdStr) cfg.remoteCmdTimeout hdead,
        PyExc.getStdout, PyExc.getStderr]

/-- The execute step when the reconnect inside `_raw_execute` fails: the
`except` handler catches the connection error, but `ex.stdout` raises
`AttributeError`, which escapes the handler. -/
theorem executePhase_connDrop (w : World) (cfg : CRRunner) (cmdStr : String)
    (hcmd : cfg.remoteCmd = some cmdStr)
    (hconn : w.connectionDropsBeforeExecute = true) :
    executePhase w cfg = (.error .attributeError, false) := by
  simp [executePhase, hcmd, hconn, PyExc.getStdout]

mutual

/-- The `retList` of `_put` is exactly the remote file paths of the tree. -/
theorem putEntry_files : ∀ (e : LocalEntry) (remote : String),
    (putEntry e remote).1 = remoteFilePaths e remote
  | .file _ _, _ => by
    simp [putEntry, remoteFilePaths]
  | .dir _ entries, remote => by
    simp [putEntry, remoteFilePaths, putEntries_files entries remote]

/-- List version of `putEntry_files`. -/
theorem putEntries_files : ∀ (es : List LocalEntry) (remote : String),
    (putEntries es remote).1 = remoteFilePathsList es remote
  | [], _ => by
    simp [putEntries, remoteFilePathsList]
  | e :: es, remote => by
    simp [putEntries, remoteFilePathsList,
          putEntry_files e (joinRemote remote e.name),
          putEntries_files es remote]

end

mutual

/-- The number of remote file paths of a tree is its file count. -/
theorem remoteFilePaths_length : ∀ (e : LocalEntry) (r : String),
    (remoteFilePaths e r).length = e.countFiles
  | .file _ _, _ => by
    simp [remoteFilePaths, LocalEntry.countFiles]
  | .dir _ entries, r => by
    simp [remoteFilePaths, LocalEntry.countFiles,
          remoteFilePathsList_length entries r]

/-- List version of `remoteFilePaths_length`. -/
theorem remoteFilePathsList_length : ∀ (es : List LocalEntry) (r : String),
    (remoteFilePathsList es r).length = countFilesList es
  | [], _ => by
    simp [remoteFilePathsList, countFilesList]
  | e :: es, r => by
    simp [remoteFilePathsList, countFilesList,
          remoteFilePaths_length e (joinRemote r e.name),
          remoteFilePathsList_length es r]

end

mutual

/-- `_put` issues only `mkdir` and `put` operations, never `unlink`. -/
theorem putEntry_no_unlink : ∀ (e : LocalEntry) (remote : String)
    (op : RemoteOp), op ∈ (putEntry e remote).2 → op.isUnlink = false
  | .file _ _, _, op => by
    intro hop
    simp [putEntry] at hop
    subst hop
    rfl
  | .dir _ entries, remote, op => by
    intro hop
    simp only [putEntry, List.mem_cons] at hop
    rcases hop with h | h
    · subst h; rfl
    · exact putEntries_no_unlink entries remote op h

/-- List version of `putEntry_no_unlink`. -/
theorem putEntries_no_unlink : ∀ (es : List LocalEntry) (remote : String)
    (op : RemoteOp), op ∈ (putEntries es remote).2 → op.isUnlink = false
  | [], _, op => by
    intro hop
    simp [putEntries] at hop
  | e :: es, remote, op => by
    intro hop
    cases e with
    | file n c =>
      simp only [putEntries, List.mem_append] at hop
      rcases hop with h | h
      · exact putEntry_no_unlink (.file n c) (joinRemote remote n) op h
      · exact putEntries_no_unlink es remote op h
    | dir n entries =>
      simp only [putEntries, List.mem_append, List.mem_cons] at hop
      rcases hop with (h | h) | h
      · subst h; rfl
      · exact putEntry_no_unlink (.dir n entries) (joinRemote remote n) op h
      · exact putEntries_no_unlink es remote op h

end

/-- `_put` as invoked from the copy-to loop never issues an `unlink`. -/
theorem putObj_no_unlink (w : World) (co : CopyObject) :
    ∀ op ∈ (putObj w co).1, op.isUnlink = false := by
  obtain ⟨l, r⟩ := co
  cases l with
  | none => intro op hop; simp [putObj] at hop
  | some lp =>
    cases h : w.findLocal lp with
    | none =>
      intro op hop
      simp [putObj, h] at hop
      subst hop
      rfl
    | some entry =>
      intro op hop
      simp only [putObj, h] at hop
      exact putEntry_no_unlink entry _ op hop

/-- The copy-to step never issues an `unlink`. -/
theorem copyToLoop_no_unlink (w : World) : ∀ (cos : List CopyObject)
    (op : RemoteOp), op ∈ (copyToLoop w cos).1 → op.isUnlink = false
  | [], op => by
    intro hop
    simp [copyToLoop] at hop
  | co :: rest, op => by
    intro hop
    have h1 := putObj_no_unlink w co
    have ih := copyToLoop_no_unlink w rest
    rcases hp : putObj w co with ⟨ops, r⟩
    cases r with
    | error e =>
      simp only [copyToLoop, hp] at hop
      exact h1 op (by rw [hp]; exact hop)
    | ok files =>
      simp only [copyToLoop, hp, List.mem_append] at hop
      rcases hop with h | h
      · exact h1 op (by rw [hp]; exact h)
      · exact ih op h

/-- `_doDeleteRemote` when no unlink fails: every ledger path is unlinked,
in recorded order. -/
theorem doDeleteRemote_ok (w : World) : ∀ (ledger : List String),
    (∀ p ∈ ledger, w.unlinkFails p = false) →
    doDeleteRemote w ledger = (ledger.map RemoteOp.unlink, .ok ())
  | [], _ => by simp [doDeleteRemote]
  | p :: rest, h => by
    have hp : w.unlinkFails p = false := h p (by simp)
    have ih := doDeleteRemote_ok w rest (fun q hq => h q (by simp [hq]))
    simp [doDeleteRemote, hp, ih]

/-- `run()` when every step succeeds: the trace is the copy-to operations
followed (when cleaning) by one unlink per ledger path, the outcome is the
execute step's result, and the final ledger is this invocation's files. -/
theorem run_ok_spec (w : World) (cfg : CRRunner) (ledger files : List String)
    (res : Option Result) (closed : Bool)
    (hcopy : (copyToLoop w cfg.copyObjectsTo).2 = (files, .ok ()))
    (hexec : executePhase w cfg = (.ok res, closed))
    (hfrom : cfg.copyObjectsFrom = [])
    (hdel : ∀ p ∈ files, w.unlinkFails p = false) :
    run w cfg ledger =
      { trace := (copyToLoop w cfg.copyObjectsTo).1 ++
                 (if cfg.cleanRemote then files.map RemoteOp.unlink else []),
        outcome := .ok res,
        finalLedger := files,
        transportClosed := closed } := by
  rcases hE : copyToLoop w cfg.copyObjectsTo with ⟨ops, files2, rok⟩
  rw [hE] at hcopy
  injection hcopy with hf hr
  subst hf
  subst hr
  cases hclean : cfg.cleanRemote with
  | true =>
    simp [run, doCopyObjectsTo, hE, hexec, doCopyObjectsFrom, hfrom,
          hclean, doDeleteRemote_ok w files2 hdel, Except.map]
  | false =>
    simp [run, doCopyObjectsTo, hE, hexec, doCopyObjectsFrom, hfrom,
          hclean]

/-- `run()` when the copy steps succeed but the execute step escapes with
an exception: the exception propagates out of `run`, no copy-from or
cleanup happens. -/
theorem run_execError (w : World) (cfg : CRRunner) (ledger files : List String)
    (e : PyExc) (closed : Bool)
    (hcopy : (copyToLoop w cfg.copyObjectsTo).2 = (files, .ok ()))
    (hexec : executePhase w cfg = (.error e, closed)) :
    run w cfg ledger =
      { trace := (copyToLoop w cfg.copyObjectsTo).1,
        outcome := .error e,
        finalLedger := files,
        transportClosed := closed } := by
  rcases hE : copyToLoop w cfg.copyObjectsTo with ⟨ops, files2, rok⟩
  rw [hE] at hcopy
  injection hcopy with hf hr
  subst hf
  subst hr
  simp [run, doCopyObjectsTo, hE, hexec]

/-- `run()` when the copy-to and execute steps succeed but the copy-from
list is non-empty: `_doCopyObjectsFrom` raises `NotImplementedError`, and
the run aborts before cleanup. -/
theorem run_copyFromError (w : World) (cfg : CRRunner)
    (ledger files : List String) (res : Option Result) (closed : Bool)
    (hcopy : (copyToLoop w cfg.copyObjectsTo).2 = (files, .ok ()))
    (hexec : executePhase w cfg = (.ok res, closed))
    (hfrom : cfg.copyObjectsFrom ≠ []) :
    run w cfg ledger =
      { trace := (copyToLoop w cfg.copyObjectsTo).1,
        outcome := .error .notImplementedError,
        finalLedger := files,
        transportClosed := closed } := by
  rcases hE : copyToLoop w cfg.copyObjectsTo with ⟨ops, files2, rok⟩
  rw [hE] at hcopy
  injection hcopy with hf hr
  subst hf
  subst hr
  have hlen : cfg.copyObjectsFrom.length ≠ 0 := by simpa using hfrom
  simp [run, doCopyObjectsTo, hE, hexec, doCopyObjectsFrom, hlen]

/-! ### Claim theorems -/

/-- C1: for every command whose deadline elapses before the remote
reports completion, `_raw_execute` force-closes the transport and raises
a `TimeoutError` carrying the stdout/stderr handles accumulated so far,
and `run()` returns a Timeout Result whose status code is the timeout
constant, whose stdout is the output produced before termination, and in
which no remote exit code is present. -/
theorem claim_C1 (w : World) (cfg : CRRunner) (cmdStr : String)
    (ledger files : List String)
    (hcmd : cfg.remoteCmd = some cmdStr)
    (hconn : w.connectionDropsBeforeExecute = false)
    (hdead : 10 * cfg.remoteCmdTimeout ≤ (w.command cmdStr).readyAt)
    (hcopy : (copyToLoop w cfg.copyObjectsTo).2 = (files, .ok ()))
    (hfrom : cfg.copyObjectsFrom = [])
    (hdel : ∀ p ∈ files, w.unlinkFails p = false) :
    rawExecute (w.command cmdStr) cfg.remoteCmdTimeout =
      (.error (.timeoutError
          (emitted (w.command cmdStr).stdoutChunks (10 * cfg.remoteCmdTimeout))
          (emitted (w.command cmdStr).stderrChunks (10 * cfg.remoteCmdTimeout))),
       true)
    ∧ (run w cfg ledger).transportClosed = true
    ∧ ∃ res : Result,
        (run w cfg ledger).outcome = .ok (some res) ∧
        res.statusCode = STATUS_TIMEOUT ∧
        res.remoteReturnCode = none ∧
        res.stdout = some (emitted (w.command cmdStr).stdoutChunks
            (10 * cfg.remoteCmdTimeout)) ∧
        res.stderr = some (emitted (w.command cmdStr).stderrChunks
            (10 * cfg.remoteCmdTimeout)) := by
  have hep := executePhase_timeout w cfg cmdStr hcmd hconn hdead
  have hrun := run_ok_spec w cfg ledger files _ _ hcopy hep hfrom hdel
  refine ⟨rawExecute_timeout _ _ hdead, by rw [hrun], ?_⟩
  exact ⟨_, by rw [hrun], rfl, rfl, rfl, rfl⟩

/-- C1 witness: a command ready only at tick 100 run with a 1-second
timeout times out; `run` yields a Timeout Result with the partial output
and no exit code. -/
theorem claim_C1_witness :
    ∃ res : Result, (run wTimeout cfgTimeout []).outcome = .ok (some res) ∧
      res.statusCode = STATUS_TIMEOUT ∧
      res.remoteReturnCode = none ∧
      res.stdout = some "partial-out" := by
  obtain ⟨-, -, res, h1, h2, h3, h4, -⟩ :=
    claim_C1 wTimeout cfgTimeout "sleep 10" [] [] rfl rfl (by decide) rfl rfl
      (by simp)
  exact ⟨res, h1, h2, h3, by rw [h4]; rfl⟩

/-- C2: for every command that finishes before its timeout deadline, the
execute operation returns a Success Result containing the command's true
remote exit code and the fully-drained stdout/stderr text, and `run()`
returns that Result. -/
theorem claim_C2 (w : World) (cfg : CRRunner) (cmdStr : String)
    (ledger files : List String)
    (hcmd : cfg.remoteCmd = some cmdStr)
    (hconn : w.connectionDropsBeforeExecute = false)
    (hready : (w.command cmdStr).readyAt < 10 * cfg.remoteCmdTimeout)
    (hcopy : (copyToLoop w cfg.copyObjectsTo).2 = (files, .ok ()))
    (hfrom : cfg.copyObjectsFrom = [])
    (hdel : ∀ p ∈ files, w.unlinkFails p = false) :
    execute (w.command cmdStr) cfg.remoteCmdTimeout =
      (.ok { statusCode := STATUS_SUCCESS,
             remoteReturnCode := some (w.command cmdStr).exitCode,
             stdout := some (fullOutput (w.command cmdStr).stdoutChunks),
             stderr := some (fullOutput (w.command cmdStr).stderrChunks),
             exception := none }, false)
    ∧ (run w cfg ledger).outcome =
      .ok (some { statusCode := STATUS_SUCCESS,
                  remoteReturnCode := some (w.command cmdStr).exitCode,
                  stdout := some (fullOutput (w.command cmdStr).stdoutChunks),
                  stderr := some (fullOutput (w.command cmdStr).stderrChunks),
                  exception := none }) := by
  have hep := executePhase_success w cfg cmdStr hcmd hconn hready
  have hrun := run_ok_spec w cfg ledger files _ _ hcopy hep hfrom hdel
  constructor
  · simp [execute, rawExecute_success (w.command cmdStr) cfg.remoteCmdTimeout hready]
  · rw [hrun]

/-- C2 witness: a command ready at tick 3 with exit code 42 run with a
1-second timeout yields a Success Result with exit code 42 and the full
output. -/
theorem claim_C2_witness :
    (run wSuccess cfgSuccess []).outcome =
      .ok (some { statusCode := STATUS_SUCCESS,
                  remoteReturnCode := some 42,
                  stdout := some "hello",
                  stderr := some "",
                  exception := none }) := by
  obtain ⟨-, h2⟩ :=
    claim_C2 wSuccess cfgSuccess "quick" [] [] rfl rfl (by decide) rfl rfl
      (by simp)
  rw [h2]
  rfl

/-- C3 counterexample: when a non-timeout exception (here: the reconnect
inside `_raw_execute` failing) is raised during the execute step, `run()`
does not return a Timeout Result: the handler's `ex.stdout` access raises
`AttributeError`, which propagates to the caller. -/
theorem claim_C3_cex :
    (run wConnDrop cfgConnDrop []).outcome = .error PyExc.attributeError := by
  rfl

/-- C3 (amended): every exception raised by the execute step is caught,
but only a `TimeoutError` is convertible: its carried stdout/stderr
handles are read and a Timeout Result is built, whereas for any other
exception the handler's `ex.stdout` attribute access raises an
`AttributeError` which propagates out of `run()`. -/
theorem claim_C3 (w : World) (cfg : CRRunner) (cmdStr : String)
    (ledger files : List String) (e : PyExc)
    (hcmd : cfg.remoteCmd = some cmdStr)
    (hcopy : (copyToLoop w cfg.copyObjectsTo).2 = (files, .ok ()))
    (hconn : w.connectionDropsBeforeExecute = true)
    (hne : ∀ so se : String, e ≠ .timeoutError so se) :
    (∀ so se : String, (PyExc.timeoutError so se).getStdout = .ok so ∧
        (PyExc.timeoutError so se).getStderr = .ok se)
    ∧ e.getStdout = .error .attributeError
    ∧ (run w cfg ledger).outcome = .error .attributeError := by
  refine ⟨fun so se => ⟨rfl, rfl⟩, ?_, ?_⟩
  · cases e <;> first
      | rfl
      | exact absurd rfl (hne _ _)
  · have hep := executePhase_connDrop w cfg cmdStr hcmd hconn
    have hrun := run_execError w cfg ledger files _ _ hcopy hep
    rw [hrun]

/-- C3 witness: a connection error during the execute step escapes `run`
as an `AttributeError`. -/
theorem claim_C3_witness :
    PyExc.connectionError.getStdout = .error .attributeError
    ∧ (run wConnDrop cfgConnDrop ["old"]).outcome = .error .attributeError := by
  obtain ⟨-, h2, h3⟩ :=
    claim_C3 wConnDrop cfgConnDrop "ls" ["old"] [] .connectionError rfl rfl rfl
      (fun _ _ h => PyExc.noConfusion h)
  exact ⟨h2, h3⟩

/-- C4 counterexample: putting a directory containing one subdirectory
containing one file creates 3 remote paths (2 directories via `mkdir` and
1 file) but the returned list has a single element — the `mkdir`'d
directory `r` is created yet absent from the list, so a cleanup-enabled
run records 1 deletion, not 3. -/
theorem claim_C4_cex :
    (putEntry nestedTree "r").1 = ["r/s/f"]
    ∧ RemoteOp.mkdir "r" ∈ (putEntry nestedTree "r").2
    ∧ "r" ∉ (putEntry nestedTree "r").1
    ∧ nestedTree.countFiles + nestedTree.countDirs = 3
    ∧ (putEntry nestedTree "r").1.length = 1
    ∧ ((run wTree cfgTree []).trace.filter RemoteOp.isUnlink).length = 1 := by
  refine ⟨by decide, by decide, by decide, by decide, by decide, ?_⟩
  rfl

/-- C4 (amended): the list returned by the put operation records exactly
the remote files created — a one-element list for a regular file, and for
a directory the concatenation over entries of the files created beneath
it (its length is the tree's file count); created subdirectories are not
recorded. -/
theorem claim_C4 (e : LocalEntry) (remote name content : String) :
    (putEntry (.file name content) remote).1 = [remote]
    ∧ (putEntry e remote).1 = remoteFilePaths e remote
    ∧ (putEntry e remote).1.length = e.countFiles := by
  refine ⟨rfl, putEntry_files e remote, ?_⟩
  rw [putEntry_files e remote]
  exact remoteFilePaths_length e remote

/-- C5 counterexample: with the ledger `[a, b]` and `unlink a` failing,
the cleanup step raises after the first deletion and no deletion is ever
issued for `b`, refuting "a deletion command is issued for all recorded
paths even when a per-path deletion fails". -/
theorem claim_C5_cex :
    doDeleteRemote wUnlinkFail ["a", "b"] = ([.unlink "a"], .error .osError)
    ∧ RemoteOp.unlink "b" ∉ (doDeleteRemote wUnlinkFail ["a", "b"]).1 := by
  exact ⟨rfl, by decide⟩

/-- C5 (amended): the cleanup step issues one deletion per recorded path
in recorded order when every deletion succeeds; when a deletion fails,
the exception propagates and no deletion is issued for the paths after
it. -/
theorem claim_C5 (w : World) (ledger : List String) (p : String)
    (rest : List String)
    (hok : ∀ q ∈ ledger, w.unlinkFails q = false)
    (hfail : w.unlinkFails p = true) :
    doDeleteRemote w ledger = (ledger.map RemoteOp.unlink, .ok ())
    ∧ doDeleteRemote w (p :: rest) = ([.unlink p], .error .osError) := by
  exact ⟨doDeleteRemote_ok w ledger hok, by simp [doDeleteRemote, hfail]⟩

/-- C5 witness: with `unlink a` failing, a ledger of `[b, c]` is fully
deleted in order, while processing `a :: [b]` stops at `a`. -/
theorem claim_C5_witness :
    doDeleteRemote wUnlinkFail ["b", "c"] =
      (["b", "c"].map RemoteOp.unlink, .ok ())
    ∧ doDeleteRemote wUnlinkFail ("a" :: ["b"]) =
      ([.unlink "a"], .error .osError) :=
  claim_C5 wUnlinkFail ["b", "c"] "a" ["b"] (by decide) (by decide)

/-- C6: `run()` performs copy-to, then the execute step, then copy-from,
then cleanup only if enabled, and returns the execute step's Result; with
no command configured the execute step produces no Result and `run`
returns nothing. -/
theorem claim_C6 (w : World) (cfg : CRRunner) (ledger files : List String)
    (res : Option Result) (closed : Bool)
    (hcopy : (copyToLoop w cfg.copyObjectsTo).2 = (files, .ok ()))
    (hexec : executePhase w cfg = (.ok res, closed))
    (hfrom : cfg.copyObjectsFrom = [])
    (hdel : ∀ p ∈ files, w.unlinkFails p = false) :
    (run w cfg ledger).outcome = .ok res
    ∧ (cfg.remoteCmd = none → res = none)
    ∧ (run w cfg ledger).trace =
        (copyToLoop w cfg.copyObjectsTo).1 ++
        (if cfg.cleanRemote then files.map RemoteOp.unlink else []) := by
  have hrun := run_ok_spec w cfg ledger files res closed hcopy hexec hfrom hdel
  refine ⟨by rw [hrun], ?_, by rw [hrun]⟩
  intro hnone
  have hn := executePhase_none w cfg hnone
  rw [hn] at hexec
  injection hexec with h1 h2
  injection h1 with h1
  exact h1.symm

/-- C6 witness: a run with one copy object, no command and cleanup
enabled returns no Result and its trace is the copy operations followed
by the cleanup unlinks. -/
theorem claim_C6_witness :
    (run wTree cfgTree []).outcome = .ok none
    ∧ (run wTree cfgTree []).trace =
        (copyToLoop wTree cfgTree.copyObjectsTo).1 ++
        (if cfgTree.cleanRemote then (["r/s/f"]).map RemoteOp.unlink else []) := by
  obtain ⟨h1, -, h3⟩ :=
    claim_C6 wTree cfgTree [] ["r/s/f"] none false rfl rfl rfl (by decide)
  exact ⟨h1, h3⟩

/-- C7 counterexample: constructing a CopyObject with only `remote` set
succeeds but the unset `local` side is stored as `None` — it is not
defaulted to the base name of the remote side, and the only operation
that would consume it (`_get`) raises `NotImplementedError` instead of
defaulting. -/
theorem claim_C7_cex :
    CopyObject.init none (some "d/x") =
      .ok { local_ := none, remote := some "d/x" }
    ∧ basename "d/x" = "x"
    ∧ (none : Option String) ≠ some (basename "d/x")
    ∧ getObj { local_ := none, remote := some "d/x" } =
      .error .notImplementedError := by
  exact ⟨rfl, by decide, by decide, rfl⟩

/-- C7 (amended): constructing with both sides unset raises `ValueError`;
constructing with exactly one side set succeeds and stores both fields
verbatim; an unset `remote` is defaulted to `os.path.basename(local)`
when the object is put, while an unset `local` is never defaulted (the
retrieval operation is unimplemented). -/
theorem claim_C7 (l r : String) (w : World) (lp : String)
    (entry : LocalEntry) (co : CopyObject)
    (hfind : w.findLocal lp = some entry) :
    CopyObject.init none none =
      .error (.valueError "local and remote cannot both be None")
    ∧ CopyObject.init (some l) none = .ok { local_ := some l, remote := none }
    ∧ CopyObject.init none (some r) = .ok { local_ := none, remote := some r }
    ∧ putObj w { local_ := some lp, remote := none } =
        ((putEntry entry (basename lp)).2, .ok (putEntry entry (basename lp)).1)
    ∧ getObj co = .error .notImplementedError := by
  refine ⟨rfl, rfl, rfl, ?_, rfl⟩
  simp [putObj, hfind]

/-- C7 witness: constructing with only `local` set succeeds, and putting
a local-only CopyObject uses the base name of the local path as the
remote destination. -/
theorem claim_C7_witness :
    CopyObject.init (some "a") none = .ok { local_ := some "a", remote := none }
    ∧ putObj wTree { local_ := some "d", remote := none } =
        ((putEntry nestedTree (basename "d")).2,
         .ok (putEntry nestedTree (basename "d")).1) := by
  obtain ⟨-, h2, -, h4, -⟩ :=
    claim_C7 "a" "b" wTree "d" nestedTree { local_ := none, remote := some "b" }
      rfl
  exact ⟨h2, h4⟩

/-- C8: constructing a run configuration with exactly one of username and
password supplied raises `ValueError`; supplying both or neither
succeeds and stores the configuration. -/
theorem claim_C8 (u p : Option String) (ip : String) (cmd : Option String)
    (tmo : Nat) (cto cfrom : Option (List CopyObject)) (port : Nat)
    (clean quiet : Bool) :
    (u.isSome = p.isSome →
      CRRunner.init ip cmd tmo u p cto cfrom port clean quiet =
        .ok { remoteIp := ip, remoteCmd := cmd, remoteCmdTimeout := tmo,
              remoteUsername := u, remotePassword := p,
              copyObjectsTo := cto.getD [], copyObjectsFrom := cfrom.getD [],
              remotePort := port, cleanRemote := clean, quiet := quiet })
    ∧ (u.isSome ≠ p.isSome →
      CRRunner.init ip cmd tmo u p cto cfrom port clean quiet =
        .error (.valueError
          "If remoteUsername is provided, we also need remotePassword")) := by
  constructor
  · intro h
    simp [CRRunner.init, h]
  · intro h
    have hb : (u.isSome != p.isSome) = true := by
      cases hu : u.isSome <;> cases hp : p.isSome <;> simp_all
    simp [CRRunner.init, hb]

/-- C8 witness: username without password is rejected; neither supplied
is accepted. -/
theorem claim_C8_witness :
    CRRunner.init "ip" none 60 (some "u") none none none 22 true true =
      .error (.valueError
        "If remoteUsername is provided, we also need remotePassword")
    ∧ CRRunner.init "ip" none 60 none none none none 22 true true =
      .ok { remoteIp := "ip" } := by
  obtain ⟨-, h2⟩ := claim_C8 (some "u") none "ip" none 60 none none 22 true true
  obtain ⟨h1, -⟩ := claim_C8 none none "ip" none 60 none none 22 true true
  exact ⟨h2 (by decide), h1 rfl⟩

/-- C9: the copy-from step raises `NotImplementedError` on every
non-empty copy-from list and does nothing on an empty one; a run with a
non-empty list fails with that error after the execute step, while a run
with an empty list proceeds to completion. -/
theorem claim_C9 (w : World) (cfg : CRRunner) (ledger files : List String)
    (res : Option Result) (closed : Bool) (cos : List CopyObject)
    (hne : cos ≠ [])
    (hcopy : (copyToLoop w cfg.copyObjectsTo).2 = (files, .ok ()))
    (hexec : executePhase w cfg = (.ok res, closed))
    (hdel : ∀ p ∈ files, w.unlinkFails p = false) :
    doCopyObjectsFrom cos = .error .notImplementedError
    ∧ doCopyObjectsFrom [] = .ok ()
    ∧ (cfg.copyObjectsFrom = [] → (run w cfg ledger).outcome = .ok res)
    ∧ (cfg.copyObjectsFrom ≠ [] →
        (run w cfg ledger).outcome = .error .notImplementedError) := by
  refine ⟨?_, rfl, ?_, ?_⟩
  · have hlen : cos.length ≠ 0 := by simpa using hne
    simp [doCopyObjectsFrom, hlen]
  · intro hfrom
    have hrun := run_ok_spec w cfg ledger files res closed hcopy hexec hfrom hdel
    rw [hrun]
  · intro hfrom
    have hrun := run_copyFromError w cfg ledger files res closed hcopy hexec hfrom
    rw [hrun]

/-- C9 witness: a configuration with one copy-from object makes `run`
fail with `NotImplementedError`. -/
theorem claim_C9_witness :
    doCopyObjectsFrom [{ local_ := some "x", remote := none }] =
      .error .notImplementedError
    ∧ (run wTree cfgFrom []).outcome = .error .notImplementedError := by
  obtain ⟨h1, -, -, h4⟩ :=
    claim_C9 wTree cfgFrom [] [] none false
      [{ local_ := some "x", remote := none }] (by simp) rfl rfl (by simp)
  exact ⟨h1, h4 (by simp [cfgFrom])⟩

/-- C10: the ledger is reinitialized at the start of every `run()`'s
copy-to step, so `run` is entirely independent of the ledger state left
by earlier runs, the final ledger is exactly this invocation's created
files, and with cleanup enabled the deletions issued are exactly one
unlink per file recorded during this same invocation. -/
theorem claim_C10 (w : World) (cfg : CRRunner) (l1 l2 files : List String)
    (res : Option Result) (closed : Bool)
    (hcopy : (copyToLoop w cfg.copyObjectsTo).2 = (files, .ok ()))
    (hexec : executePhase w cfg = (.ok res, closed))
    (hfrom : cfg.copyObjectsFrom = [])
    (hdel : ∀ p ∈ files, w.unlinkFails p = false)
    (hclean : cfg.cleanRemote = true) :
    run w cfg l1 = run w cfg l2
    ∧ (run w cfg l1).finalLedger = files
    ∧ (run w cfg l1).trace.filter RemoteOp.isUnlink =
        files.map RemoteOp.unlink := by
  have hrun := run_ok_spec w cfg l1 files res closed hcopy hexec hfrom hdel
  have hrun2 := run_ok_spec w cfg l2 files res closed hcopy hexec hfrom hdel
  refine ⟨by rw [hrun, hrun2], by rw [hrun], ?_⟩
  rw [hrun]
  simp only [hclean, if_true]
  rw [List.filter_append]
  have h1 : (copyToLoop w cfg.copyObjectsTo).1.filter RemoteOp.isUnlink = [] :=
    List.filter_eq_nil_iff.mpr
      (fun a ha => by simp [copyToLoop_no_unlink w cfg.copyObjectsTo a ha])
  have h2 : (files.map RemoteOp.unlink).filter RemoteOp.isUnlink =
      files.map RemoteOp.unlink :=
    List.filter_eq_self.mpr (by
      intro a ha
      obtain ⟨q, -, rfl⟩ := List.mem_map.mp ha
      rfl)
  rw [h1, h2, List.nil_append]

/-- C10 witness: running with a stale ledger entry gives exactly the same
result as running with an empty ledger, and the cleanup unlinks exactly
this run's file. -/
theorem claim_C10_witness :
    run wTree cfgTree ["stale-path"] = run wTree cfgTree []
    ∧ (run wTree cfgTree ["stale-path"]).trace.filter RemoteOp.isUnlink =
        ["r/s/f"].map RemoteOp.unlink := by
  obtain ⟨h1, -, h3⟩ :=
    claim_C10 wTree cfgTree ["stale-path"] [] ["r/s/f"] none false rfl rfl rfl
      (by decide) rfl
  exact ⟨h1, h3⟩

end CRR
